import Mathlib

/-!
Verification of the SimLearning simulation-player core: the interaction
event log (src/sim/attempt.ts), the image-scene zoom engine
(src/scenes/ImageScene.tsx) and the attempt lifecycle page
(src/pages/PlayerActivityPage.tsx), shallowly embedded as pure Lean
functions over explicit state records.  Remote calls (Supabase) are
modelled by outcome parameters and by traces of the calls a function
issues, in the order it issues them.
-/

namespace SimLearning

/-- Payload values carried by interaction events (booleans, numbers,
rationals for normalized coordinates and zoom scales, strings). -/
inductive PValue where
  | b (x : Bool)
  | n (x : Nat)
  | q (x : ℚ)
  | s (x : String)
  deriving DecidableEq, Repr

/-- An interaction event, from src/sim/attempt.ts: a type tag, an optional
payload (modelled as a finite association list) and a millisecond
timestamp. -/
structure AttemptEvent where
  type : String
  payload : List (String × PValue)
  timestamp : Nat
  deriving DecidableEq, Repr

/-- logEvent from src/sim/attempt.ts: appends an event with the current
timestamp to the module-level append-only log (the log is threaded
explicitly; the timestamp of Date.now() is a parameter). -/
def logEvent (type : String) (payload : List (String × PValue)) (t : Nat)
    (log : List AttemptEvent) : List AttemptEvent :=
  log ++ [{ type := type, payload := payload, timestamp := t }]

/-- getAttemptEvents from src/sim/attempt.ts: returns the full log. -/
def getAttemptEvents (log : List AttemptEvent) : List AttemptEvent := log

/-- Modelled from the spec: getAttemptEventsSince is imported from
src/sim/attempt.ts by PlayerActivityPage.tsx, but its definition is
absent from the available sources.  The spec (section 4.3) defines
eventsSince(cursor) as the sub-sequence of the log after index cursor,
exclusive of events already flushed. -/
def getAttemptEventsSince (cursor : Nat) (log : List AttemptEvent) :
    List AttemptEvent :=
  log.drop cursor

/-- Modelled from the spec: resetAttemptEvents is imported from
src/sim/attempt.ts but its definition is absent from the available
sources.  The spec (section 4.3) defines reset() as clearing the log to
empty. -/
def resetAttemptEvents : List AttemptEvent := []

/-! Image scene viewport (src/scenes/ImageScene.tsx). -/

def MIN_SCALE : ℚ := 1/2

def MAX_SCALE : ℚ := 3

def ZOOM_STEP : ℚ := 1/5

/-- Rounding to two decimal places, the embedding of
Number((x).toFixed(2)) on the exact rationals the zoom engine
manipulates. -/
def round2 (x : ℚ) : ℚ := (round (x * 100) : ℚ) / 100

/-- Local state of the ImageScene component: zoom scale and pan
translation, together with the shared event log it appends to. -/
structure ImageSceneState where
  scale : ℚ
  translateX : ℚ
  translateY : ℚ
  log : List AttemptEvent
  deriving DecidableEq, Repr

/-- handleZoom from src/scenes/ImageScene.tsx: clamps the rounded new
scale into the MIN_SCALE..MAX_SCALE range and logs a zoom_changed event
exactly when the clamped value differs from the previous scale. -/
def handleZoom (t : Nat) (delta : ℚ) (s : ImageSceneState) : ImageSceneState :=
  let next := min MAX_SCALE (max MIN_SCALE (round2 (s.scale + delta)))
  if next ≠ s.scale then
    { s with scale := next, log := logEvent "zoom_changed" [("scale", .q next)] t s.log }
  else
    { s with scale := next }

/-- handleResetView from src/scenes/ImageScene.tsx. -/
def handleResetView (t : Nat) (s : ImageSceneState) : ImageSceneState :=
  { s with
    scale := 1, translateX := 0, translateY := 0,
    log := logEvent "view_reset" [("scale", .q 1), ("x", .q 0), ("y", .q 0)] t s.log }

/-- Applies a sequence of zoom steps (each a timestamp and a delta) in
order. -/
def applyZooms (steps : List (Nat × ℚ)) (s : ImageSceneState) : ImageSceneState :=
  steps.foldl (fun acc step => handleZoom step.1 step.2 acc) s

/-! Data model of PlayerActivityPage.tsx. -/

/-- Scene declaration of a simulation manifest
(PlayerActivityPage.tsx, SimulationManifest.scene).  Optional string
fields are none when absent; JS truthiness of a present string is
being nonempty. -/
structure SceneDecl where
  type : String
  src : Option String
  image_path : Option String
  storageBucket : Option String
  storagePath : Option String
  entry : Option String
  alt : Option String
  deriving DecidableEq, Repr

/-- Task declaration of a simulation manifest. -/
structure TaskDecl where
  prompt : String
  checklist : List String
  deriving DecidableEq, Repr

/-- Tools declaration of a simulation manifest. -/
structure ToolsDecl where
  pins : Option Bool
  grid : Option Bool
  deriving DecidableEq, Repr

/-- A resolved SimulationManifest (PlayerActivityPage.tsx). -/
structure SimulationManifest where
  id : String
  version : String
  title : String
  description : String
  scene : SceneDecl
  task : TaskDecl
  tools : Option ToolsDecl
  deriving DecidableEq, Repr

/-- The raw manifest JSON stored in simulation_versions.manifest, before
the page validates and resolves it; every field may be absent. -/
structure RawManifest where
  id : Option String
  version : Option String
  title : Option String
  description : Option String
  scene : Option SceneDecl
  task : Option TaskDecl
  tools : Option ToolsDecl
  deriving DecidableEq, Repr

/-- A user-placed pin (PinLocation in PlayerActivityPage.tsx), with
normalized coordinates. -/
structure PinLocation where
  id : Nat
  x : ℚ
  y : ℚ
  deriving DecidableEq, Repr

/-- An attempts table row as selected by the page. -/
structure AttemptRecord where
  id : String
  status : String
  started_at : Option String
  submitted_at : Option String
  updated_at : Option String
  attempt_no : Nat
  deriving DecidableEq, Repr

/-- An attempt_responses row as selected by the page; response_json is
reduced to its text field, the only part the page reads. -/
structure AttemptResponse where
  response_key : String
  response_text : Option String
  response_json_text : Option String
  updated_at : Option String
  created_at : Option String
  deriving DecidableEq, Repr

/-- An attempt_events row as selected by the page. -/
structure AttemptEventRow where
  id : String
  event_type : String
  payload : List (String × PValue)
  created_at : Option String
  deriving DecidableEq, Repr

/-- Activity metadata shown in the header (ActivityMeta in
PlayerActivityPage.tsx). -/
structure ActivityMeta where
  title : String
  course_label : String
  simulation_title : String
  version : String
  course_id : Option String
  deriving DecidableEq, Repr

/-- Where the scene image URL was resolved from (sceneUrl.ts). -/
inductive SceneSource where
  | storage
  | publicPath
  deriving DecidableEq, Repr

/-- The React state of PlayerActivityPage, one field per useState hook
that participates in the verified behavior, plus the module-level event
log of src/sim/attempt.ts threaded through explicitly. -/
structure PlayerState where
  manifest : Option SimulationManifest
  packagePath : Option String
  activityMeta : Option ActivityMeta
  isLoading : Bool
  error : Option String
  showGrid : Bool
  pinMode : Bool
  pins : List PinLocation
  loadingActivity : Bool
  attemptId : Option String
  attemptStatus : String
  attemptNo : Option Nat
  attemptLoading : Bool
  savingDraft : Bool
  submitting : Bool
  responseText : String
  lastSavedAt : Option String
  saveMessage : Option String
  loadedResponses : List AttemptResponse
  loadedEvents : List AttemptEventRow
  eventCursor : Nat
  sceneImageSrc : String
  sceneLoading : Bool
  sceneRetryAttempted : Bool
  sceneError : Option String
  sceneSource : Option SceneSource
  log : List AttemptEvent
  deriving DecidableEq, Repr

/-! Derived gating flags (PlayerActivityPage.tsx lines 576-581 and
780-790). -/

/-- gridAllowed: Boolean(manifest?.tools?.grid). -/
def gridAllowed (s : PlayerState) : Bool :=
  match s.manifest with
  | some m => (m.tools.bind ToolsDecl.grid).getD false
  | none => false

/-- pinsAllowed: Boolean(manifest?.tools?.pins). -/
def pinsAllowed (s : PlayerState) : Bool :=
  match s.manifest with
  | some m => (m.tools.bind ToolsDecl.pins).getD false
  | none => false

/-- attemptLocked: the attempt status equals the submitted literal. -/
def attemptLocked (s : PlayerState) : Bool :=
  s.attemptStatus == "submitted"

/-- activeError: error ?? sceneError. -/
def activeError (s : PlayerState) : Option String :=
  s.error <|> s.sceneError

/-- combinedLoading: isLoading or attemptLoading or sceneLoading. -/
def combinedLoading (s : PlayerState) : Bool :=
  s.isLoading || s.attemptLoading || s.sceneLoading

/-- controlsDisabled: combinedLoading or attemptLocked or
Boolean(activeError) or submitting. -/
def controlsDisabled (s : PlayerState) : Bool :=
  combinedLoading s || attemptLocked s || (activeError s).isSome || s.submitting

/-- canSaveDraft, the gate wired to the Save draft button of
BottomActionBar (disabled when false). -/
def canSaveDraft (s : PlayerState) : Bool :=
  s.attemptId.isSome && !attemptLocked s && !s.savingDraft &&
    !combinedLoading s && !s.submitting && !(activeError s).isSome

/-- canSubmitAttempt, the gate wired to the Submit button of
BottomActionBar. -/
def canSubmitAttempt (s : PlayerState) : Bool :=
  s.attemptId.isSome && s.attemptStatus == "draft" && !s.submitting &&
    !combinedLoading s && !s.savingDraft && !(activeError s).isSome

/-! Annotation overlay handlers (PlayerActivityPage.tsx lines 583-618). -/

/-- handleGridToggle: guarded by gridAllowed and controlsDisabled; flips
showGrid and logs grid_toggled with the new value. -/
def handleGridToggle (t : Nat) (s : PlayerState) : PlayerState :=
  if !gridAllowed s || controlsDisabled s then s
  else
    let next := !s.showGrid
    { s with showGrid := next,
             log := logEvent "grid_toggled" [("enabled", .b next)] t s.log }

/-- handlePinModeToggle: guarded by pinsAllowed and controlsDisabled;
flips pinMode and logs pin_mode_toggled with the new value. -/
def handlePinModeToggle (t : Nat) (s : PlayerState) : PlayerState :=
  if !pinsAllowed s || controlsDisabled s then s
  else
    let next := !s.pinMode
    { s with pinMode := next,
             log := logEvent "pin_mode_toggled" [("enabled", .b next)] t s.log }

/-- Math.max over the ids of a pin collection (0 on an empty list; the
page only takes the maximum of nonempty collections). -/
def maxPinId (pins : List PinLocation) : Nat :=
  pins.foldr (fun p acc => max p.id acc) 0

/-- The id assigned to a newly added pin:
prev.length > 0 ? Math.max(...ids) + 1 : 1. -/
def nextPinId (pins : List PinLocation) : Nat :=
  if pins.isEmpty then 1 else maxPinId pins + 1

/-- handleAddPin: guarded by controlsDisabled and pinsAllowed; assigns
the next id, logs pin_added with the full pin record and appends the pin
to the collection. -/
def handleAddPin (t : Nat) (x y : ℚ) (s : PlayerState) : PlayerState :=
  if controlsDisabled s || !pinsAllowed s then s
  else
    let newPin : PinLocation := { id := nextPinId s.pins, x := x, y := y }
    { s with
      pins := s.pins ++ [newPin],
      log := logEvent "pin_added"
        [("id", .n newPin.id), ("x", .q x), ("y", .q y)] t s.log }

/-- handleRemovePin: guarded by controlsDisabled and pinsAllowed (note:
not by pinMode); filters the pin out by id and logs pin_removed with the
id, whether or not a matching pin existed. -/
def handleRemovePin (t : Nat) (pid : Nat) (s : PlayerState) : PlayerState :=
  if controlsDisabled s || !pinsAllowed s then s
  else
    { s with
      pins := s.pins.filter (fun p => p.id != pid),
      log := logEvent "pin_removed" [("id", .n pid)] t s.log }

/-! Draft persistence and submission (PlayerActivityPage.tsx lines
620-717).  Remote stores are modelled by an outcome record saying how
each call would respond, and every function returns, besides its result
state, the ordered trace of remote calls it issued. -/

/-- A row of the attempt_events insert payload: the flushed event with
the attempt id attached and its timestamp folded into the payload. -/
structure EventInsertRow where
  attempt_id : String
  event_type : String
  payload : List (String × PValue)
  deriving DecidableEq, Repr

/-- Maps an in-memory event to its insert row, as the eventPayload
mapping inside persistDraft does. -/
def eventToRow (aid : String) (e : AttemptEvent) : EventInsertRow :=
  { attempt_id := aid, event_type := e.type,
    payload := e.payload ++ [("timestamp", .n e.timestamp)] }

/-- A remote call issued by the page, in issue order. -/
inductive DbCall where
  | upsertResponse (attempt_id response_key response_text : String)
  | insertEvents (rows : List EventInsertRow)
  | updateAttemptStatus (attempt_id status submitted_at : String)
  deriving DecidableEq, Repr

/-- The row returned by the updated-attempt select after the submit
update. -/
structure SubmitRow where
  status : String
  submitted_at : Option String
  updated_at : Option String
  deriving DecidableEq, Repr

/-- How the remote stores respond to the calls persistDraft issues:
the response upsert either errors or returns the upserted row, and the
events insert either errors or succeeds. -/
structure SaveOutcome where
  upsert : Except String AttemptResponse
  insertEventsResult : Except String Unit
  deriving Repr

/-- persistDraft (PlayerActivityPage.tsx lines 620-682): upserts the
primary response text, then flushes the events after the cursor as one
insert, then advances the cursor to the log length; any failure reports
false and stops at that point.  Returns (success, new state, trace of
issued calls).  The Date.now() ISO string is the now parameter. -/
def persistDraft (showToast : Bool) (o : SaveOutcome) (now : String)
    (s : PlayerState) : Bool × PlayerState × List DbCall :=
  match s.attemptId with
  | none => (false, s, [])
  | some aid =>
    let s1 := { s with error := none, savingDraft := true, saveMessage := none }
    let upsertCall := DbCall.upsertResponse aid "primary" s.responseText
    match o.upsert with
    | .error msg =>
      (false,
       { s1 with error := some ("Unable to save draft response: " ++ msg),
                 savingDraft := false },
       [upsertCall])
    | .ok row =>
      let s2 := { s1 with
        lastSavedAt := some ((row.updated_at <|> row.created_at).getD now) }
      let newEvents := getAttemptEventsSince s.eventCursor s.log
      let finish := fun (st : PlayerState) (trace : List DbCall) =>
        let st1 := { st with
          eventCursor := (getAttemptEvents s.log).length,
          savingDraft := false,
          attemptStatus := "draft" }
        let st2 := { st1 with lastSavedAt := some (st1.lastSavedAt.getD now) }
        (true,
         if showToast then { st2 with saveMessage := some "Draft saved" } else st2,
         trace)
      if newEvents.isEmpty then
        finish s2 [upsertCall]
      else
        let insertCall := DbCall.insertEvents (newEvents.map (eventToRow aid))
        match o.insertEventsResult with
        | .error msg =>
          (false,
           { s2 with error := some ("Unable to save attempt events: " ++ msg),
                     savingDraft := false },
           [upsertCall, insertCall])
        | .ok _ => finish s2 [upsertCall, insertCall]

/-- The Save draft button of BottomActionBar: onClick runs
handleSaveDraft (persistDraft with a toast), and the button is disabled
unless canSaveDraft, so a click while disabled changes nothing and
issues no calls. -/
def saveDraftButton (o : SaveOutcome) (now : String) (s : PlayerState) :
    PlayerState × List DbCall :=
  if canSaveDraft s then
    let r := persistDraft true o now s
    (r.2.1, r.2.2)
  else (s, [])

/-- handleSubmitAttempt (PlayerActivityPage.tsx lines 688-717): no-op
without an attempt id or when locked; otherwise performs an internal
draft save (no toast), aborts on its failure, then updates the attempt
status to submitted and on success forces pin mode off.  The update
outcome uo is the response of the attempts update: an error, or the
selected row (none when no row came back). -/
def handleSubmitAttempt (o : SaveOutcome) (uo : Except String (Option SubmitRow))
    (now : String) (s : PlayerState) : PlayerState × List DbCall :=
  if s.attemptId.isNone || attemptLocked s then (s, [])
  else
    let aid := s.attemptId.getD ""
    let s1 := { s with error := none, submitting := true }
    let saved := persistDraft false o now s1
    if !saved.1 then ({ saved.2.1 with submitting := false }, saved.2.2)
    else
      let updateCall := DbCall.updateAttemptStatus aid "submitted" now
      match uo with
      | .error msg =>
        ({ saved.2.1 with error := some ("Unable to submit attempt: " ++ msg),
                          submitting := false },
         saved.2.2 ++ [updateCall])
      | .ok row =>
        ({ saved.2.1 with
             attemptStatus := (row.map SubmitRow.status).getD "submitted",
             lastSavedAt := some ((row.bind SubmitRow.updated_at).getD now),
             submitting := false,
             pinMode := false },
         saved.2.2 ++ [updateCall])

/-! Scene image loading and the automatic retry (PlayerActivityPage.tsx
lines 116-172). -/

/-- loadSceneImage (lines 116-137): resolves the scene image URL via
resolveSceneImageUrl; the resolution outcome is an error (a thrown
message), a null result (no resolvable path) or a URL with its source
tag.  On success it stores the URL and source and clears the retry flag;
on failure it records the scene error and clears the image source. -/
def loadSceneImage (res : Except String (Option (String × SceneSource)))
    (s : PlayerState) : PlayerState :=
  let s1 := { s with sceneLoading := true, sceneError := none }
  match res with
  | .error msg =>
    { s1 with sceneError := some msg, sceneImageSrc := "", sceneLoading := false }
  | .ok none =>
    { s1 with sceneError := some "Scene image path is missing.",
              sceneImageSrc := "", sceneLoading := false }
  | .ok (some (url, src)) =>
    { s1 with sceneImageSrc := url, sceneSource := some src,
              sceneRetryAttempted := false, sceneLoading := false }

/-- Outcome of the HEAD request handleSceneImageError makes to verify
the failed image URL: an HTTP status, or the fetch itself throwing. -/
inductive HeadResult where
  | status (code : Nat)
  | failed
  deriving DecidableEq, Repr

/-- The fatal scene-image message surfaced when no retry is made. -/
def sceneFatalMsg : String := "Unable to load scene image. Please refresh the page."

/-- handleSceneImageError (lines 147-168): when the image fails to load,
if the source was storage and no retry was attempted yet, a HEAD status
of 403 (or the HEAD check itself failing) triggers marking the retry
flag and re-running loadSceneImage; otherwise the failure is surfaced as
fatal.  The Bool of the result records whether an automatic retry (a
loadSceneImage call) was performed. -/
def handleSceneImageError (head : HeadResult)
    (res : Except String (Option (String × SceneSource)))
    (s : PlayerState) : PlayerState × Bool :=
  if s.manifest.isNone then (s, false)
  else if s.sceneSource == some SceneSource.storage && !s.sceneRetryAttempted then
    match head with
    | .status code =>
      if code = 403 then
        (loadSceneImage res { s with sceneRetryAttempted := true }, true)
      else ({ s with sceneError := some sceneFatalMsg }, false)
    | .failed =>
      (loadSceneImage res { s with sceneRetryAttempted := true }, true)
  else ({ s with sceneError := some sceneFatalMsg }, false)

/-! Activity and attempt loading (PlayerActivityPage.tsx lines
201-574), for the route carrying an activity id (the attempt-id route is
the analogous hydration path and is not needed by the claims). -/

/-- JS truthiness of an optional string field: present and nonempty. -/
def truthy (o : Option String) : Bool :=
  !(o.getD "").isEmpty

/-- An activities view row as selected by loadActivity. -/
structure ActivityRow where
  id : String
  title : String
  course_id : Option String
  course_code : Option String
  course_title : Option String
  simulation_id : Option String
  simulation_title : Option String
  simulation_description : Option String
  simulation_version_id : Option String
  simulation_version : Option String
  manifest : Option RawManifest
  package_path : Option String
  deriving DecidableEq, Repr

/-- The scene-shape validation of loadActivity: the scene object exists,
its type is image, and it has a source path, a storage location or a
package entry. -/
def validScene (scene : Option SceneDecl) : Bool :=
  match scene with
  | none => false
  | some sc =>
    let hasStorage := truthy sc.storageBucket && truthy sc.storagePath
    let hasSrc := truthy sc.src || truthy sc.image_path
    let hasEntry := truthy sc.entry
    sc.type == "image" && (hasSrc || hasStorage || hasEntry)

/-- The resolvedManifest construction of loadActivity (lines 541-553):
each field falls back from the raw manifest to the simulation version,
the simulation row and finally a literal default. -/
def resolveActivityManifest (data : ActivityRow) (raw : RawManifest) :
    SimulationManifest :=
  let simPresent := truthy data.simulation_title
  { id := (raw.id <|> data.simulation_version_id <|>
      (if simPresent then data.simulation_id else none)).getD "simulation",
    version := raw.version.getD (data.simulation_version.getD "—"),
    title := (raw.title <|>
      (if simPresent then data.simulation_title else none)).getD data.title,
    description := (raw.description <|>
      (if simPresent then some (data.simulation_description.getD "") else none)).getD "",
    scene := raw.scene.getD
      { type := "image", src := none, image_path := none, storageBucket := none,
        storagePath := none, entry := none, alt := none },
    task := raw.task.getD { prompt := "No task provided.", checklist := [] },
    tools := raw.tools }

/-- The course label shown in the header (lines 557-559). -/
def courseLabelOf (data : ActivityRow) : String :=
  if truthy data.course_code then
    data.course_code.getD "" ++
      (if truthy data.course_title then " — " ++ data.course_title.getD "" else "")
  else "Course"

/-- The ActivityMeta recorded for the header (lines 561-567). -/
def activityMetaOf (data : ActivityRow) : ActivityMeta :=
  { title := data.title,
    course_label := courseLabelOf data,
    simulation_title :=
      (if truthy data.simulation_title then data.simulation_title else none).getD
        "Simulation",
    version := data.simulation_version.getD "—",
    course_id := data.course_id }

/-- How the remote stores respond to the calls initializeAttempt issues,
in order: the existing-attempts select, the next_attempt_no rpc (the
page treats a returned 0 or null like an error), the attempt insert, the
responses select and the events select. -/
structure InitOutcome where
  attemptsFetch : Except String (List AttemptRecord)
  nextNo : Except String Nat
  createAttempt : Except String AttemptRecord
  responsesFetch : Except String (List AttemptResponse)
  eventsFetch : Except String (List AttemptEventRow)
  deriving Repr

/-- The hydration tail of initializeAttempt once an attempt record is in
hand (lines 264-307): records the attempt identity, loads the responses
and the prior events, and surfaces the first failure. -/
def hydrateAttempt (o : InitOutcome) (rec : AttemptRecord) (s : PlayerState) :
    PlayerState :=
  let s2 := { s with
    attemptId := some rec.id,
    attemptStatus := rec.status,
    attemptNo := some rec.attempt_no,
    lastSavedAt := match rec.updated_at with
      | some u => some u
      | none => s.lastSavedAt }
  match o.responsesFetch with
  | .error e =>
    { s2 with error := some ("Unable to load attempt responses: " ++ e),
              attemptLoading := false }
  | .ok rows =>
    let s3 := { s2 with loadedResponses := rows }
    let primary := rows.find? (fun r => r.response_key == "primary")
    let resolvedText := primary.bind
      (fun r => r.response_text <|> r.response_json_text)
    let s4 := match resolvedText with
      | some txt => { s3 with responseText := txt }
      | none => s3
    let s5 :=
      if (primary.bind AttemptResponse.updated_at).isSome ||
          (primary.bind AttemptResponse.created_at).isSome then
        { s4 with
          lastSavedAt := primary.bind (fun r => r.updated_at <|> r.created_at) }
      else s4
    match o.eventsFetch with
    | .error e =>
      { s5 with error := some ("Unable to load attempt events: " ++ e),
                attemptLoading := false }
    | .ok evs => { s5 with loadedEvents := evs, attemptLoading := false }

/-- initializeAttempt (lines 201-308): requires a signed-in user, finds
the newest draft attempt or creates one with the next attempt number,
then hydrates responses and events; each fetch failure surfaces an error
and returns at that point. -/
def initializeAttempt (sessionUser : Option String) (o : InitOutcome)
    (s : PlayerState) : PlayerState :=
  if sessionUser.isNone then
    { s with error := some "You must be signed in to start an attempt.",
             attemptLoading := false }
  else
    let s1 := { s with attemptLoading := true, attemptStatus := "draft",
                       attemptId := none, attemptNo := none }
    match o.attemptsFetch with
    | .error e =>
      { s1 with error := some ("Unable to load attempt: " ++ e),
                attemptLoading := false }
    | .ok existing =>
      match existing.find? (fun a => a.status == "draft") with
      | some rec => hydrateAttempt o rec s1
      | none =>
        match o.nextNo with
        | .error e =>
          { s1 with error := some ("Unable to start a new attempt: " ++ e),
                    attemptLoading := false }
        | .ok n =>
          if n = 0 then
            { s1 with error := some "Unable to start a new attempt: Unknown error",
                      attemptLoading := false }
          else
            match o.createAttempt with
            | .error e =>
              { s1 with error := some ("Unable to create attempt: " ++ e),
                        attemptLoading := false }
            | .ok created => hydrateAttempt o created s1

/-- The state reset performed at the top of loadActivity (lines
310-329), including resetting the module-level event log and the flush
cursor. -/
def loadReset (s : PlayerState) : PlayerState :=
  { s with
    isLoading := true, error := none, loadingActivity := true,
    attemptId := none, attemptStatus := "draft", attemptNo := none,
    responseText := "", lastSavedAt := none, saveMessage := none,
    loadedResponses := [], loadedEvents := [],
    log := resetAttemptEvents, eventCursor := 0,
    attemptLoading := true, sceneImageSrc := "", sceneError := none,
    sceneRetryAttempted := false, sceneSource := none, packagePath := none }

/-- A failure exit of loadActivity before the manifest resolves: the
error is recorded and manifest and activity meta are cleared together. -/
def loadFail (msg : String) (s : PlayerState) : PlayerState :=
  { s with error := some msg, manifest := none, activityMeta := none,
           isLoading := false, loadingActivity := false }

/-- loadActivity (lines 310-574) on the activity-id route: resets state,
fetches the activity row, validates the published manifest, resolves and
records it, then runs initializeAttempt and finally clears the loading
flags. -/
def loadActivity (sessionUser : Option String)
    (ao : Except String (Option ActivityRow)) (io : InitOutcome)
    (s : PlayerState) : PlayerState :=
  let s0 := loadReset s
  match ao with
  | .error e => loadFail ("Unable to load activity: " ++ e) s0
  | .ok none => loadFail "Activity not found." s0
  | .ok (some data) =>
    if !truthy data.simulation_version_id then
      loadFail "Simulation version not available for this activity." s0
    else
      match data.manifest with
      | none => loadFail "Published manifest is invalid." s0
      | some raw =>
        if !validScene raw.scene then
          loadFail "Published manifest is missing a valid image scene." s0
        else
          let s1 := { s0 with
            manifest := some (resolveActivityManifest data raw),
            packagePath := data.package_path,
            activityMeta := some (activityMetaOf data),
            showGrid := false, pinMode := false, pins := [] }
          let s2 := initializeAttempt sessionUser io s1
          { s2 with isLoading := false, loadingActivity := false }

/-! Helper lemmas. -/

lemma handleZoom_scale (t : Nat) (d : ℚ) (s : ImageSceneState) :
    (handleZoom t d s).scale = min MAX_SCALE (max MIN_SCALE (round2 (s.scale + d))) := by
  simp only [handleZoom]
  split <;> rfl

lemma handleZoom_bounds (t : Nat) (d : ℚ) (s : ImageSceneState) :
    MIN_SCALE ≤ (handleZoom t d s).scale ∧ (handleZoom t d s).scale ≤ MAX_SCALE := by
  rw [handleZoom_scale]
  refine ⟨le_min (by norm_num [MIN_SCALE, MAX_SCALE]) (le_max_left _ _), min_le_left _ _⟩

lemma applyZooms_bounds (steps : List (Nat × ℚ)) (s : ImageSceneState)
    (h1 : MIN_SCALE ≤ s.scale) (h2 : s.scale ≤ MAX_SCALE) :
    MIN_SCALE ≤ (applyZooms steps s).scale ∧ (applyZooms steps s).scale ≤ MAX_SCALE := by
  induction steps generalizing s with
  | nil => exact ⟨h1, h2⟩
  | cons hd tl ih =>
    have hb := handleZoom_bounds hd.1 hd.2 s
    exact ih (handleZoom hd.1 hd.2 s) hb.1 hb.2

lemma le_maxPinId {p : PinLocation} {pins : List PinLocation} (h : p ∈ pins) :
    p.id ≤ maxPinId pins := by
  induction pins with
  | nil => cases h
  | cons q tl ih =>
    rcases List.mem_cons.mp h with h1 | h2
    · subst h1
      exact le_max_left _ _
    · exact le_trans (ih h2) (le_max_right _ _)

lemma filter_ne_of_not_mem (pins : List PinLocation) (pid : Nat)
    (h : pid ∉ pins.map PinLocation.id) :
    pins.filter (fun p => p.id != pid) = pins := by
  induction pins with
  | nil => rfl
  | cons q tl ih =>
    simp only [List.map_cons, List.mem_cons] at h
    push_neg at h
    have hq : (q.id != pid) = true := by
      simpa [bne_iff_ne] using (Ne.symm h.1)
    simp [List.filter_cons, hq, ih h.2]

/-! Concrete fixtures used by witnesses and counterexamples. -/

/-- A manifest whose tools enable both the grid and pins. -/
def pinManifest : SimulationManifest :=
  { id := "sim-csi", version := "1.0.0", title := "Crime scene",
    description := "",
    scene := { type := "image", src := some "scene.png", image_path := none,
               storageBucket := none, storagePath := none, entry := none,
               alt := none },
    task := { prompt := "Inspect the scene.", checklist := [] },
    tools := some { pins := some true, grid := some true } }

/-- A pristine page state: nothing loaded, nothing in flight. -/
def blankState : PlayerState :=
  { manifest := none, packagePath := none, activityMeta := none,
    isLoading := false, error := none, showGrid := false, pinMode := false,
    pins := [], loadingActivity := false, attemptId := none,
    attemptStatus := "draft", attemptNo := none, attemptLoading := false,
    savingDraft := false, submitting := false, responseText := "",
    lastSavedAt := none, saveMessage := none, loadedResponses := [],
    loadedEvents := [], eventCursor := 0, sceneImageSrc := "",
    sceneLoading := false, sceneRetryAttempted := false, sceneError := none,
    sceneSource := none, log := [] }

/-- A fully loaded draft state with pins enabled, pin mode on and all
controls active. -/
def enabledState : PlayerState :=
  { blankState with
    manifest := some pinManifest, attemptId := some "att-1",
    attemptNo := some 1, responseText := "my response", pinMode := true,
    sceneImageSrc := "scene.png", sceneSource := some SceneSource.publicPath }

/-- The enabled state after a successful submit: the attempt status is
submitted, so the attempt is locked. -/
def lockedState : PlayerState :=
  { enabledState with attemptStatus := "submitted" }

/-- The enabled state holding exactly one pin with id 1. -/
def onePinState : PlayerState :=
  { enabledState with pins := [{ id := 1, x := 1/2, y := 1/2 }] }

/-- The one-pin state with pin-placement mode switched off. -/
def pinModeOffState : PlayerState :=
  { onePinState with pinMode := false }

/-- The response row the store returns from a successful upsert. -/
def okResponseRow : AttemptResponse :=
  { response_key := "primary", response_text := some "my response",
    response_json_text := some "my response",
    updated_at := some "2024-01-01T00:00:00Z", created_at := none }

/-- A store outcome where every call succeeds. -/
def okOutcome : SaveOutcome :=
  { upsert := Except.ok okResponseRow, insertEventsResult := Except.ok () }

/-- A store outcome where the upsert succeeds and the event insert
fails. -/
def failingInsertOutcome : SaveOutcome :=
  { upsert := Except.ok okResponseRow,
    insertEventsResult := Except.error "network down" }

/-- A store outcome where the upsert itself fails. -/
def failingUpsertOutcome : SaveOutcome :=
  { upsert := Except.error "offline", insertEventsResult := Except.ok () }

/-- The row the attempts update returns on a successful submit. -/
def submittedRow : SubmitRow :=
  { status := "submitted", submitted_at := some "t3", updated_at := some "t3" }

/-- A successful submit-update outcome. -/
def okSubmitResult : Except String (Option SubmitRow) :=
  Except.ok (some submittedRow)

/-- The enabled state carrying one unflushed event. -/
def loggedState : PlayerState :=
  { enabledState with
    log := [{ type := "grid_toggled", payload := [("enabled", PValue.b true)],
              timestamp := 100 }] }

/-- The enabled state with a storage-sourced scene image and no retry
attempted yet. -/
def storageSceneState : PlayerState :=
  { enabledState with sceneSource := some SceneSource.storage }

/-- A valid image scene declaration with a public source path. -/
def sceneDeclOk : SceneDecl :=
  { type := "image", src := some "scene.png", image_path := none,
    storageBucket := none, storagePath := none, entry := none, alt := none }

/-- A raw manifest with a valid image scene and both tools enabled. -/
def validRawManifest : RawManifest :=
  { id := some "man-1", version := some "1.0.0", title := some "Crime scene",
    description := none,
    scene := some sceneDeclOk,
    task := some { prompt := "Inspect the scene.", checklist := [] },
    tools := some { pins := some true, grid := some true } }

/-- An activities row carrying the valid raw manifest. -/
def activityRowOk : ActivityRow :=
  { id := "act-1", title := "Activity 1", course_id := some "c-1",
    course_code := some "CSI101", course_title := some "Forensics",
    simulation_id := some "sim-csi", simulation_title := some "Crime scene",
    simulation_description := some "", simulation_version_id := some "sv-1",
    simulation_version := some "1.0.0", manifest := some validRawManifest,
    package_path := none }

/-- An existing draft attempt row. -/
def draftAttemptRec : AttemptRecord :=
  { id := "att-9", status := "draft", started_at := some "t0",
    submitted_at := none, updated_at := none, attempt_no := 1 }

/-- An initialization outcome whose responses fetch fails after the
draft attempt was found. -/
def respFailInit : InitOutcome :=
  { attemptsFetch := Except.ok [draftAttemptRec], nextNo := Except.ok 1,
    createAttempt := Except.ok draftAttemptRec,
    responsesFetch := Except.error "boom", eventsFetch := Except.ok [] }

/-! Claim theorems. -/

/-- C7: eventsSince(cursor) returns the sub-sequence of the log after
index cursor: when the cursor has been advanced to the log length, the
query is empty, and after appending further events the same cursor
returns exactly those events in order. -/
theorem C7_eventsSince_cursor (log extra : List AttemptEvent) (cursor : Nat)
    (h : cursor = log.length) :
    getAttemptEventsSince cursor log = [] ∧
    getAttemptEventsSince cursor (log ++ extra) = extra := by
  subst h
  constructor
  · simp [getAttemptEventsSince]
  · simp [getAttemptEventsSince]

/-- Witness for C7: a log of three appended events with the cursor
advanced to 3 yields an empty query, and after appending two more events
the query at 3 returns exactly those two. -/
theorem C7_eventsSince_cursor_witness :
    getAttemptEventsSince 3
        (logEvent "pin_added" [] 30 (logEvent "grid_toggled" [] 20
          (logEvent "pin_mode_toggled" [] 10 []))) = [] ∧
    getAttemptEventsSince 3
        ((logEvent "pin_added" [] 30 (logEvent "grid_toggled" [] 20
          (logEvent "pin_mode_toggled" [] 10 []))) ++
         [{ type := "view_reset", payload := [], timestamp := 40 },
          { type := "zoom_changed", payload := [], timestamp := 50 }]) =
      [{ type := "view_reset", payload := [], timestamp := 40 },
       { type := "zoom_changed", payload := [], timestamp := 50 }] :=
  C7_eventsSince_cursor
    (logEvent "pin_added" [] 30 (logEvent "grid_toggled" [] 20
      (logEvent "pin_mode_toggled" [] 10 [])))
    [{ type := "view_reset", payload := [], timestamp := 40 },
     { type := "zoom_changed", payload := [], timestamp := 50 }] 3 (by rfl)

/-- C8: every zoom step computes the clamp of the 2-decimal rounding of
the previous scale plus the delta, the scale therefore stays within the
0.5 to 3.0 range across any sequence of zoom steps started in range, a
zoom_changed event is logged exactly when the clamped value differs from
the previous scale, and ten consecutive steps of +0.2 from scale 1 end
at exactly 3. -/
theorem C8_zoom_clamp (s : ImageSceneState) (t : Nat) (d : ℚ)
    (steps : List (Nat × ℚ))
    (h1 : MIN_SCALE ≤ s.scale) (h2 : s.scale ≤ MAX_SCALE) :
    (handleZoom t d s).scale = min MAX_SCALE (max MIN_SCALE (round2 (s.scale + d))) ∧
    (MIN_SCALE ≤ (applyZooms steps s).scale ∧
      (applyZooms steps s).scale ≤ MAX_SCALE) ∧
    ((handleZoom t d s).scale ≠ s.scale →
      (handleZoom t d s).log = s.log ++
        [{ type := "zoom_changed",
           payload := [("scale", PValue.q (handleZoom t d s).scale)],
           timestamp := t }]) ∧
    ((handleZoom t d s).scale = s.scale → (handleZoom t d s).log = s.log) ∧
    (applyZooms (List.replicate 10 (0, ZOOM_STEP))
        { scale := 1, translateX := 0, translateY := 0, log := [] }).scale = 3 := by
  refine ⟨handleZoom_scale t d s, applyZooms_bounds steps s h1 h2, ?_, ?_, ?_⟩
  · intro hne
    rw [handleZoom_scale] at hne
    rw [handleZoom_scale]
    simp only [handleZoom, logEvent]
    rw [if_pos hne]
  · intro heq
    rw [handleZoom_scale] at heq
    simp only [handleZoom]
    rw [if_neg (by simp [heq])]
  · norm_num [applyZooms, List.replicate, handleZoom, round2, round_eq,
      MIN_SCALE, MAX_SCALE, ZOOM_STEP, min_def, max_def]

/-- Witness for C8: instantiated at a unit delta from scale 1 with an
empty step sequence. -/
theorem C8_zoom_clamp_witness :
    (handleZoom 0 1 { scale := 1, translateX := 0, translateY := 0, log := [] }).scale =
      min MAX_SCALE (max MIN_SCALE (round2 (1 + 1))) ∧
    (MIN_SCALE ≤ (applyZooms []
        { scale := 1, translateX := 0, translateY := 0, log := [] }).scale ∧
      (applyZooms [] { scale := 1, translateX := 0, translateY := 0, log := [] }).scale
        ≤ MAX_SCALE) ∧
    ((handleZoom 0 1 { scale := 1, translateX := 0, translateY := 0, log := [] }).scale ≠ 1 →
      (handleZoom 0 1 { scale := 1, translateX := 0, translateY := 0, log := [] }).log =
        [] ++
        [{ type := "zoom_changed",
           payload := [("scale", PValue.q (handleZoom 0 1
             { scale := 1, translateX := 0, translateY := 0, log := [] }).scale)],
           timestamp := 0 }]) ∧
    ((handleZoom 0 1 { scale := 1, translateX := 0, translateY := 0, log := [] }).scale = 1 →
      (handleZoom 0 1 { scale := 1, translateX := 0, translateY := 0, log := [] }).log = []) ∧
    (applyZooms (List.replicate 10 (0, ZOOM_STEP))
        { scale := 1, translateX := 0, translateY := 0, log := [] }).scale = 3 :=
  C8_zoom_clamp { scale := 1, translateX := 0, translateY := 0, log := [] } 0 1 []
    (by norm_num [MIN_SCALE]) (by norm_num [MAX_SCALE])

/-- C2, counterexample: the claim that no pin id is ever assigned twice
within a session fails.  Adding two pins assigns ids 1 and 2; after
removing the pin with id 2 (the current maximum), the next add computes
max of the remaining ids plus one, which is 2 again. -/
theorem C2_pin_id_reuse_counterexample :
    (handleAddPin 2 (1/2) (1/2)
        (handleAddPin 1 (3/10) (2/5) enabledState)).pins.map PinLocation.id
      = [1, 2] ∧
    (handleRemovePin 3 2 (handleAddPin 2 (1/2) (1/2)
        (handleAddPin 1 (3/10) (2/5) enabledState))).pins.map PinLocation.id
      = [1] ∧
    (handleAddPin 4 (7/10) (7/10) (handleRemovePin 3 2
        (handleAddPin 2 (1/2) (1/2)
          (handleAddPin 1 (3/10) (2/5) enabledState)))).pins.map PinLocation.id
      = [1, 2] := by
  decide

/-- C2, amended: a newly added pin's id equals the maximum id currently
in the collection plus one (or 1 when the collection is empty), so the
new id never collides with a pin currently in the collection; ids can
however be reassigned after the pin holding the current maximum id is
removed. -/
theorem C2_pin_id_assignment (s : PlayerState) (t : Nat) (x y : ℚ)
    (hgate : controlsDisabled s = false) (hallow : pinsAllowed s = true) :
    (handleAddPin t x y s).pins =
      s.pins ++ [{ id := nextPinId s.pins, x := x, y := y }] ∧
    nextPinId s.pins = (if s.pins.isEmpty then 1 else maxPinId s.pins + 1) ∧
    ∀ p ∈ s.pins, p.id ≠ nextPinId s.pins := by
  refine ⟨by simp [handleAddPin, hgate, hallow], rfl, ?_⟩
  intro p hp
  have hmax := le_maxPinId hp
  have hnil : s.pins ≠ [] := List.ne_nil_of_mem hp
  have hid : nextPinId s.pins = maxPinId s.pins + 1 := by
    unfold nextPinId
    rw [if_neg]
    simpa using hnil
  omega

/-- Witness for C2 (amended), instantiated at the enabled draft state
with an empty pin collection. -/
theorem C2_pin_id_assignment_witness :
    (handleAddPin 1 (3/10) (2/5) enabledState).pins =
      enabledState.pins ++ [{ id := nextPinId enabledState.pins, x := 3/10, y := 2/5 }] ∧
    nextPinId enabledState.pins =
      (if enabledState.pins.isEmpty then 1 else maxPinId enabledState.pins + 1) ∧
    ∀ p ∈ enabledState.pins, p.id ≠ nextPinId enabledState.pins :=
  C2_pin_id_assignment enabledState 1 (3/10) (2/5) (by decide) (by decide)

/-- C9, counterexample: removePin is claimed to be a no-op unless pin
mode is on, like addPin; but with pin mode off, pins allowed and
controls enabled, removing the one placed pin still removes it. -/
theorem C9_removePin_pinMode_counterexample :
    pinsAllowed pinModeOffState = true ∧
    controlsDisabled pinModeOffState = false ∧
    pinModeOffState.pinMode = false ∧
    pinModeOffState.pins.map PinLocation.id = [1] ∧
    (handleRemovePin 5 1 pinModeOffState).pins = [] := by
  decide

/-- C9, amended: removePin is a no-op unless pins are allowed and
controls are enabled (pin mode is not required, unlike the viewport
add-pin path); when the guards pass it removes exactly the pins carrying
the given id, and removing a nonexistent id leaves the collection
unchanged. -/
theorem C9_removePin_guards (s : PlayerState) (t pid : Nat) :
    ((controlsDisabled s = true ∨ pinsAllowed s = false) →
      handleRemovePin t pid s = s) ∧
    (controlsDisabled s = false → pinsAllowed s = true →
      ((handleRemovePin t pid s).pins = s.pins.filter (fun p => p.id != pid) ∧
       (pid ∉ s.pins.map PinLocation.id →
         (handleRemovePin t pid s).pins = s.pins))) := by
  constructor
  · intro h
    rcases h with h | h <;> simp [handleRemovePin, h]
  · intro h1 h2
    refine ⟨by simp [handleRemovePin, h1, h2], ?_⟩
    intro hmem
    simp [handleRemovePin, h1, h2, filter_ne_of_not_mem s.pins pid hmem]

/-- Witness for C9 (amended): at the locked state the guard fails and
removePin changes nothing; at the enabled state with one pin, removing a
nonexistent id leaves the collection unchanged. -/
theorem C9_removePin_guards_witness :
    handleRemovePin 5 1 lockedState = lockedState ∧
    (handleRemovePin 6 99 onePinState).pins = onePinState.pins :=
  ⟨(C9_removePin_guards lockedState 5 1).1 (Or.inl (by decide)),
   ((C9_removePin_guards onePinState 6 99).2 (by decide) (by decide)).2 (by decide)⟩

/-- C10: whenever removePin's guards pass (pins allowed, controls
enabled), a pin_removed event carrying the id is appended to the log
even when no pin with that id exists: the collection is unchanged but
the log grows by exactly that event. -/
theorem C10_pin_removed_logged (s : PlayerState) (t pid : Nat)
    (hgate : controlsDisabled s = false) (hallow : pinsAllowed s = true)
    (hmem : pid ∉ s.pins.map PinLocation.id) :
    (handleRemovePin t pid s).pins = s.pins ∧
    (handleRemovePin t pid s).log = s.log ++
      [{ type := "pin_removed", payload := [("id", PValue.n pid)],
         timestamp := t }] := by
  refine ⟨?_, by simp [handleRemovePin, hgate, hallow, logEvent]⟩
  simp [handleRemovePin, hgate, hallow, filter_ne_of_not_mem s.pins pid hmem]

/-- Witness for C10: removing the absent id 99 at the enabled
one-pin state keeps the collection and logs pin_removed with id 99. -/
theorem C10_pin_removed_logged_witness :
    (handleRemovePin 6 99 onePinState).pins = onePinState.pins ∧
    (handleRemovePin 6 99 onePinState).log = onePinState.log ++
      [{ type := "pin_removed", payload := [("id", PValue.n 99)],
         timestamp := 6 }] :=
  C10_pin_removed_logged onePinState 6 99 (by decide) (by decide) (by decide)

/-- C4: when the attempt is locked (status submitted), adding a pin,
toggling the grid, toggling pin mode, removing a pin and the Save draft
button are all no-ops: the state (pins, grid flag, pin mode, event log)
is unchanged and no store calls are issued. -/
theorem C4_locked_no_ops (s : PlayerState) (t pid : Nat) (x y : ℚ)
    (o : SaveOutcome) (now : String)
    (h : attemptLocked s = true) :
    handleAddPin t x y s = s ∧
    handleGridToggle t s = s ∧
    handlePinModeToggle t s = s ∧
    handleRemovePin t pid s = s ∧
    saveDraftButton o now s = (s, []) := by
  have hc : controlsDisabled s = true := by
    simp [controlsDisabled, h]
  have hcs : canSaveDraft s = false := by
    simp [canSaveDraft, h]
  exact ⟨by simp [handleAddPin, hc], by simp [handleGridToggle, hc],
    by simp [handlePinModeToggle, hc], by simp [handleRemovePin, hc],
    by simp [saveDraftButton, hcs]⟩

/-- Witness for C4: at the locked state every mutating operation leaves
the state unchanged and issues no calls. -/
theorem C4_locked_no_ops_witness :
    handleAddPin 7 (1/2) (1/2) lockedState = lockedState ∧
    handleGridToggle 7 lockedState = lockedState ∧
    handlePinModeToggle 7 lockedState = lockedState ∧
    handleRemovePin 7 1 lockedState = lockedState ∧
    saveDraftButton okOutcome "2024-01-02T00:00:00Z" lockedState = (lockedState, []) :=
  C4_locked_no_ops lockedState 7 1 (1/2) (1/2) okOutcome "2024-01-02T00:00:00Z"
    (by decide)

/-- C1: persistDraft issues the response-text upsert strictly before the
event flush; when the event insert fails after a successful upsert, it
reports failure, the cursor and log are untouched, and a retried
persistDraft (whose upsert succeeds) issues the very same upsert call
followed by the very same event batch. -/
theorem C1_persistDraft_ordering (o o2 : SaveOutcome) (sh sh2 : Bool)
    (now now2 : String) (s : PlayerState) (aid m : String)
    (row row2 : AttemptResponse)
    (hid : s.attemptId = some aid)
    (hup : o.upsert = Except.ok row)
    (hins : o.insertEventsResult = Except.error m)
    (hne : getAttemptEventsSince s.eventCursor s.log ≠ []) :
    (persistDraft sh o now s).1 = false ∧
    (persistDraft sh o now s).2.2 =
      [DbCall.upsertResponse aid "primary" s.responseText,
       DbCall.insertEvents
         ((getAttemptEventsSince s.eventCursor s.log).map (eventToRow aid))] ∧
    (persistDraft sh o now s).2.1.eventCursor = s.eventCursor ∧
    (persistDraft sh o now s).2.1.log = s.log ∧
    (o2.upsert = Except.ok row2 →
      (persistDraft sh2 o2 now2 (persistDraft sh o now s).2.1).2.2 =
        [DbCall.upsertResponse aid "primary" s.responseText,
         DbCall.insertEvents
           ((getAttemptEventsSince s.eventCursor s.log).map (eventToRow aid))]) := by
  have hempty : (getAttemptEventsSince s.eventCursor s.log).isEmpty = false := by
    simpa [List.isEmpty_iff] using hne
  have hstate : persistDraft sh o now s =
      (false,
       { s with error := some ("Unable to save attempt events: " ++ m),
                savingDraft := false, saveMessage := none,
                lastSavedAt := some ((row.updated_at <|> row.created_at).getD now) },
       [DbCall.upsertResponse aid "primary" s.responseText,
        DbCall.insertEvents
          ((getAttemptEventsSince s.eventCursor s.log).map (eventToRow aid))]) := by
    simp [persistDraft, hid, hup, hins, hempty]
  refine ⟨by rw [hstate], by rw [hstate], by rw [hstate], by rw [hstate], ?_⟩
  intro hup2
  have hle : ¬s.log.length ≤ s.eventCursor := fun hl =>
    hne (by simpa [getAttemptEventsSince] using List.drop_eq_nil_of_le hl)
  rw [hstate]
  rcases h2 : o2.insertEventsResult with e2 | u2 <;>
    simp [persistDraft, hid, hup2, h2, hempty, hle, getAttemptEventsSince]

/-- Witness for C1: at the enabled state with one unflushed event, a
failing event insert after a successful upsert reports failure, leaves
the cursor at 0, and the retry re-sends the same single-event batch. -/
theorem C1_persistDraft_ordering_witness :
    (persistDraft true failingInsertOutcome "t1" loggedState).1 = false ∧
    (persistDraft true failingInsertOutcome "t1" loggedState).2.2 =
      [DbCall.upsertResponse "att-1" "primary" loggedState.responseText,
       DbCall.insertEvents
         ((getAttemptEventsSince loggedState.eventCursor loggedState.log).map
           (eventToRow "att-1"))] ∧
    (persistDraft true failingInsertOutcome "t1" loggedState).2.1.eventCursor =
      loggedState.eventCursor ∧
    (persistDraft true failingInsertOutcome "t1" loggedState).2.1.log =
      loggedState.log ∧
    (okOutcome.upsert = Except.ok okResponseRow →
      (persistDraft true okOutcome "t2"
          (persistDraft true failingInsertOutcome "t1" loggedState).2.1).2.2 =
        [DbCall.upsertResponse "att-1" "primary" loggedState.responseText,
         DbCall.insertEvents
           ((getAttemptEventsSince loggedState.eventCursor loggedState.log).map
             (eventToRow "att-1"))]) :=
  C1_persistDraft_ordering failingInsertOutcome okOutcome true true "t1" "t2"
    loggedState "att-1" "network down" okResponseRow okResponseRow
    rfl rfl rfl (by decide)

/-- C3: submit first performs an internal draft save; when that save
fails — whether the text upsert itself fails, or the event insert fails
after a successful upsert — the submission aborts with the status still
draft, the submitting flag dropped and no status-update call issued;
when the save and the status update succeed, the status becomes
submitted and pin mode is forced off. -/
theorem C3_submit_gate (o : SaveOutcome) (uo : Except String (Option SubmitRow))
    (now : String) (s : PlayerState) (aid m : String)
    (row : AttemptResponse) (sr : SubmitRow)
    (hid : s.attemptId = some aid) (hdraft : s.attemptStatus = "draft") :
    (∀ m1, o.upsert = Except.error m1 →
      (handleSubmitAttempt o uo now s).1.attemptStatus = "draft" ∧
      (handleSubmitAttempt o uo now s).1.submitting = false ∧
      (handleSubmitAttempt o uo now s).2 =
        [DbCall.upsertResponse aid "primary" s.responseText]) ∧
    (o.upsert = Except.ok row → o.insertEventsResult = Except.error m →
      getAttemptEventsSince s.eventCursor s.log ≠ [] →
      (handleSubmitAttempt o uo now s).1.attemptStatus = "draft" ∧
      (handleSubmitAttempt o uo now s).1.submitting = false ∧
      (handleSubmitAttempt o uo now s).2 =
        [DbCall.upsertResponse aid "primary" s.responseText,
         DbCall.insertEvents
           ((getAttemptEventsSince s.eventCursor s.log).map (eventToRow aid))]) ∧
    (o.upsert = Except.ok row → o.insertEventsResult = Except.ok () →
      uo = Except.ok (some sr) → sr.status = "submitted" →
      (handleSubmitAttempt o uo now s).1.attemptStatus = "submitted" ∧
      (handleSubmitAttempt o uo now s).1.pinMode = false) := by
  have hlock : attemptLocked s = false := by
    simp [attemptLocked, hdraft]
  have hsome : s.attemptId.isNone = false := by
    simp [hid]
  refine ⟨?_, ?_, ?_⟩
  · intro m1 hup
    simp [handleSubmitAttempt, hsome, hlock, persistDraft, hid, hup, hdraft]
  · intro hup hins hne
    have hempty : (getAttemptEventsSince s.eventCursor s.log).isEmpty = false := by
      simpa [List.isEmpty_iff] using hne
    simp [handleSubmitAttempt, hsome, hlock, persistDraft, hid, hup, hins,
      hempty, hdraft]
  · intro hup hins huo hsr
    rcases hek : (getAttemptEventsSince s.eventCursor s.log).isEmpty with _ | _ <;>
      simp [handleSubmitAttempt, hsome, hlock, persistDraft, hid, hup, hins,
        huo, hsr, hek]

/-- Witness for C3: at the enabled draft state, a failing upsert aborts
the submission with the status still draft; at the one-unflushed-event
state a failing event insert after a successful upsert aborts the same
way without a status-update call; and the all-success outcome submits
and turns pin mode off. -/
theorem C3_submit_gate_witness :
    ((handleSubmitAttempt failingUpsertOutcome okSubmitResult "t3"
        enabledState).1.attemptStatus = "draft" ∧
      (handleSubmitAttempt failingUpsertOutcome okSubmitResult "t3"
        enabledState).1.submitting = false ∧
      (handleSubmitAttempt failingUpsertOutcome okSubmitResult "t3"
        enabledState).2 =
        [DbCall.upsertResponse "att-1" "primary" enabledState.responseText]) ∧
    ((handleSubmitAttempt failingInsertOutcome okSubmitResult "t3"
        loggedState).1.attemptStatus = "draft" ∧
      (handleSubmitAttempt failingInsertOutcome okSubmitResult "t3"
        loggedState).1.submitting = false ∧
      (handleSubmitAttempt failingInsertOutcome okSubmitResult "t3"
        loggedState).2 =
        [DbCall.upsertResponse "att-1" "primary" loggedState.responseText,
         DbCall.insertEvents
           ((getAttemptEventsSince loggedState.eventCursor loggedState.log).map
             (eventToRow "att-1"))]) ∧
    ((handleSubmitAttempt okOutcome okSubmitResult "t3"
        enabledState).1.attemptStatus = "submitted" ∧
      (handleSubmitAttempt okOutcome okSubmitResult "t3"
        enabledState).1.pinMode = false) :=
  ⟨(C3_submit_gate failingUpsertOutcome okSubmitResult "t3" enabledState "att-1"
      "network down" okResponseRow submittedRow rfl rfl).1 "offline" rfl,
   (C3_submit_gate failingInsertOutcome okSubmitResult "t3" loggedState "att-1"
      "network down" okResponseRow submittedRow rfl rfl).2.1 rfl rfl (by decide),
   (C3_submit_gate okOutcome okSubmitResult "t3" enabledState "att-1"
      "network down" okResponseRow submittedRow rfl rfl).2.2 rfl rfl rfl rfl⟩

/-- C6, counterexample: the claim that the scene-image retry happens at
most once per scene load fails.  A storage 403 failure triggers a retry
whose successful re-resolution clears the retry flag, so a second image
failure triggers a second automatic retry. -/
theorem C6_second_retry_counterexample :
    (handleSceneImageError (HeadResult.status 403)
        (Except.ok (some ("signed-2", SceneSource.storage)))
        storageSceneState).2 = true ∧
    (handleSceneImageError (HeadResult.status 403)
        (Except.ok (some ("signed-2", SceneSource.storage)))
        storageSceneState).1.sceneRetryAttempted = false ∧
    (handleSceneImageError (HeadResult.status 403)
        (Except.ok (some ("signed-3", SceneSource.storage)))
        (handleSceneImageError (HeadResult.status 403)
          (Except.ok (some ("signed-2", SceneSource.storage)))
          storageSceneState).1).2 = true := by
  decide

/-- C6, amended: a storage-sourced image failure whose HEAD check
returns 403 (or itself fails) triggers an automatic re-resolution retry
only while the retry flag is clear; with the flag set the failure is
fatal and surfaced.  A retry whose re-resolution fails keeps the flag
set (so no further automatic retry), but a successful re-resolution
clears the flag again, so a later failure of the new URL can retry
again. -/
theorem C6_retry_policy (s : PlayerState) (head : HeadResult)
    (res : Except String (Option (String × SceneSource)))
    (e url : String) (src : SceneSource)
    (hm : s.manifest.isSome = true) :
    (s.sceneRetryAttempted = true →
      (handleSceneImageError head res s).2 = false ∧
      (handleSceneImageError head res s).1.sceneError = some sceneFatalMsg) ∧
    ((handleSceneImageError head res s).2 = true →
      s.sceneSource = some SceneSource.storage ∧
      s.sceneRetryAttempted = false ∧
      (head = HeadResult.status 403 ∨ head = HeadResult.failed)) ∧
    (s.sceneSource = some SceneSource.storage → s.sceneRetryAttempted = false →
      head = HeadResult.status 403 →
      (res = Except.error e →
        (handleSceneImageError head res s).1.sceneRetryAttempted = true ∧
        (handleSceneImageError head res s).1.sceneError = some e) ∧
      (res = Except.ok (some (url, src)) →
        (handleSceneImageError head res s).1.sceneRetryAttempted = false ∧
        (handleSceneImageError head res s).1.sceneImageSrc = url)) := by
  obtain ⟨mm, hmm⟩ := Option.isSome_iff_exists.mp hm
  refine ⟨?_, ?_, ?_⟩
  · intro hret
    cases head <;> simp [handleSceneImageError, hmm, hret]
  · intro h2
    by_cases hsrc : s.sceneSource = some SceneSource.storage
    · by_cases hret : s.sceneRetryAttempted
      · exfalso
        cases head <;> simp [handleSceneImageError, hmm, hret] at h2
      · refine ⟨hsrc, by simpa using hret, ?_⟩
        cases head with
        | status code =>
          by_cases hc : code = 403
          · exact Or.inl (by rw [hc])
          · exfalso
            simp [handleSceneImageError, hmm, hsrc, hc] at h2
        | failed => exact Or.inr rfl
    · exfalso
      have hb : (s.sceneSource == some SceneSource.storage) = false := by
        simpa using hsrc
      cases head <;> simp [handleSceneImageError, hmm, hb] at h2
  · intro hsrc hret h403
    constructor
    · intro hres
      simp [h403, handleSceneImageError, hmm, hsrc, hret, loadSceneImage, hres]
    · intro hres
      simp [h403, handleSceneImageError, hmm, hsrc, hret, loadSceneImage, hres]

/-- Witness for C6 (amended): at the storage-sourced state a 403 retry
whose re-resolution succeeds ends with the retry flag cleared and the
new URL installed. -/
theorem C6_retry_policy_witness :
    (handleSceneImageError (HeadResult.status 403)
        (Except.ok (some ("u2", SceneSource.storage)))
        storageSceneState).1.sceneRetryAttempted = false ∧
    (handleSceneImageError (HeadResult.status 403)
        (Except.ok (some ("u2", SceneSource.storage)))
        storageSceneState).1.sceneImageSrc = "u2" :=
  ((C6_retry_policy storageSceneState (HeadResult.status 403)
      (Except.ok (some ("u2", SceneSource.storage))) "x" "u2"
      SceneSource.storage rfl).2.2 rfl rfl rfl).2 rfl

/-- C5, counterexample: the claim that a failed fetch step leaves no
partial state (manifest, attempt id and attempt state all cleared
together) fails.  When the responses fetch fails after the draft attempt
was found, the load ends with the error set while both the manifest and
the attempt id are still populated. -/
theorem C5_partial_state_counterexample :
    (loadActivity (some "student-1") (Except.ok (some activityRowOk))
        respFailInit blankState).error =
      some "Unable to load attempt responses: boom" ∧
    (loadActivity (some "student-1") (Except.ok (some activityRowOk))
        respFailInit blankState).attemptId = some "att-9" ∧
    (loadActivity (some "student-1") (Except.ok (some activityRowOk))
        respFailInit blankState).manifest.isSome = true := by
  decide

/-- C5, amended: if any fetch step of loading fails, the load ends in an
error state with a descriptive message; but not all partial state is
cleared: failures before the manifest resolves (activity fetch error,
missing activity, missing simulation version, invalid manifest, invalid
scene) clear manifest and activity meta together with the already-reset
attempt id, while a failure of the attempt-responses fetch leaves the
already-resolved manifest and the already-recorded attempt id in
place.  The conjuncts below cover, in order, every failure exit of the
activity-route load: activity fetch error, missing activity, missing
version, missing manifest, invalid scene, missing session, attempts
fetch error, next-attempt-number error, create error, responses fetch
error and events fetch error. -/
theorem C5_load_partial_state (su : Option String) (io : InitOutcome)
    (s : PlayerState) (data : ActivityRow) (raw : RawManifest)
    (u e : String) (n : Nat) (lst : List AttemptRecord)
    (rec : AttemptRecord) (rows : List AttemptResponse) :
    ((loadActivity su (Except.error e) io s).error =
        some ("Unable to load activity: " ++ e) ∧
      (loadActivity su (Except.error e) io s).manifest = none ∧
      (loadActivity su (Except.error e) io s).activityMeta = none ∧
      (loadActivity su (Except.error e) io s).attemptId = none) ∧
    ((loadActivity su (Except.ok none) io s).error = some "Activity not found." ∧
      (loadActivity su (Except.ok none) io s).manifest = none ∧
      (loadActivity su (Except.ok none) io s).activityMeta = none ∧
      (loadActivity su (Except.ok none) io s).attemptId = none) ∧
    (truthy data.simulation_version_id = false →
      (loadActivity su (Except.ok (some data)) io s).error =
          some "Simulation version not available for this activity." ∧
        (loadActivity su (Except.ok (some data)) io s).manifest = none ∧
        (loadActivity su (Except.ok (some data)) io s).activityMeta = none ∧
        (loadActivity su (Except.ok (some data)) io s).attemptId = none) ∧
    (truthy data.simulation_version_id = true → data.manifest = none →
      (loadActivity su (Except.ok (some data)) io s).error =
          some "Published manifest is invalid." ∧
        (loadActivity su (Except.ok (some data)) io s).manifest = none ∧
        (loadActivity su (Except.ok (some data)) io s).activityMeta = none ∧
        (loadActivity su (Except.ok (some data)) io s).attemptId = none) ∧
    (truthy data.simulation_version_id = true → data.manifest = some raw →
      validScene raw.scene = false →
      (loadActivity su (Except.ok (some data)) io s).error =
          some "Published manifest is missing a valid image scene." ∧
        (loadActivity su (Except.ok (some data)) io s).manifest = none ∧
        (loadActivity su (Except.ok (some data)) io s).activityMeta = none ∧
        (loadActivity su (Except.ok (some data)) io s).attemptId = none) ∧
    (truthy data.simulation_version_id = true → data.manifest = some raw →
      validScene raw.scene = true → su = none →
      (loadActivity su (Except.ok (some data)) io s).error =
        some "You must be signed in to start an attempt.") ∧
    (truthy data.simulation_version_id = true → data.manifest = some raw →
      validScene raw.scene = true → su = some u →
      io.attemptsFetch = Except.error e →
      (loadActivity su (Except.ok (some data)) io s).error =
        some ("Unable to load attempt: " ++ e)) ∧
    (truthy data.simulation_version_id = true → data.manifest = some raw →
      validScene raw.scene = true → su = some u →
      io.attemptsFetch = Except.ok lst →
      lst.find? (fun a => a.status == "draft") = none →
      io.nextNo = Except.error e →
      (loadActivity su (Except.ok (some data)) io s).error =
        some ("Unable to start a new attempt: " ++ e)) ∧
    (truthy data.simulation_version_id = true → data.manifest = some raw →
      validScene raw.scene = true → su = some u →
      io.attemptsFetch = Except.ok lst →
      lst.find? (fun a => a.status == "draft") = none →
      io.nextNo = Except.ok n → n ≠ 0 →
      io.createAttempt = Except.error e →
      (loadActivity su (Except.ok (some data)) io s).error =
        some ("Unable to create attempt: " ++ e)) ∧
    (truthy data.simulation_version_id = true → data.manifest = some raw →
      validScene raw.scene = true → su = some u →
      io.attemptsFetch = Except.ok lst →
      lst.find? (fun a => a.status == "draft") = some rec →
      io.responsesFetch = Except.error e →
      (loadActivity su (Except.ok (some data)) io s).error =
          some ("Unable to load attempt responses: " ++ e) ∧
        (loadActivity su (Except.ok (some data)) io s).attemptId = some rec.id ∧
        (loadActivity su (Except.ok (some data)) io s).manifest =
          some (resolveActivityManifest data raw)) ∧
    (truthy data.simulation_version_id = true → data.manifest = some raw →
      validScene raw.scene = true → su = some u →
      io.attemptsFetch = Except.ok lst →
      lst.find? (fun a => a.status == "draft") = some rec →
      io.responsesFetch = Except.ok rows →
      io.eventsFetch = Except.error e →
      (loadActivity su (Except.ok (some data)) io s).error =
        some ("Unable to load attempt events: " ++ e)) := by
  refine ⟨?_, ?_, ?_, ?_, ?_, ?_, ?_, ?_, ?_, ?_, ?_⟩
  · simp [loadActivity, loadFail, loadReset]
  · simp [loadActivity, loadFail, loadReset]
  · intro hver
    simp [loadActivity, loadFail, loadReset, hver]
  · intro hver hman
    simp [loadActivity, loadFail, loadReset, hver, hman]
  · intro hver hman hscene
    simp [loadActivity, loadFail, loadReset, hver, hman, hscene]
  · intro hver hman hscene hsu
    simp [loadActivity, loadReset, initializeAttempt, hver, hman, hscene, hsu]
  · intro hver hman hscene hsu hatt
    simp [loadActivity, loadReset, initializeAttempt, hver, hman, hscene, hsu,
      hatt]
  · intro hver hman hscene hsu hatt hfind hno
    simp [loadActivity, loadReset, initializeAttempt, hver, hman, hscene, hsu,
      hatt, hfind, hno]
  · intro hver hman hscene hsu hatt hfind hno hn hcr
    simp [loadActivity, loadReset, initializeAttempt, hver, hman, hscene, hsu,
      hatt, hfind, hno, hn, hcr]
  · intro hver hman hscene hsu hatt hfind hresp
    simp [loadActivity, loadReset, initializeAttempt, hydrateAttempt, hver,
      hman, hscene, hsu, hatt, hfind, hresp]
  · intro hver hman hscene hsu hatt hfind hresp hev
    simp [loadActivity, loadReset, initializeAttempt, hydrateAttempt, hver,
      hman, hscene, hsu, hatt, hfind, hresp, hev]

/-- Witness for C5 (amended): at the concrete activity row and the
responses-fetch-failure outcome, the load ends with the error recorded
while the attempt id and the manifest survive; and at a failing activity
fetch everything is cleared together. -/
theorem C5_load_partial_state_witness :
    ((loadActivity (some "student-1") (Except.ok (some activityRowOk))
          respFailInit blankState).error =
        some ("Unable to load attempt responses: " ++ "boom") ∧
      (loadActivity (some "student-1") (Except.ok (some activityRowOk))
          respFailInit blankState).attemptId = some draftAttemptRec.id ∧
      (loadActivity (some "student-1") (Except.ok (some activityRowOk))
          respFailInit blankState).manifest =
        some (resolveActivityManifest activityRowOk validRawManifest)) ∧
    ((loadActivity (some "student-1") (Except.error "down") respFailInit
          blankState).error = some ("Unable to load activity: " ++ "down") ∧
      (loadActivity (some "student-1") (Except.error "down") respFailInit
          blankState).manifest = none ∧
      (loadActivity (some "student-1") (Except.error "down") respFailInit
          blankState).activityMeta = none ∧
      (loadActivity (some "student-1") (Except.error "down") respFailInit
          blankState).attemptId = none) :=
  ⟨(C5_load_partial_state (some "student-1") respFailInit blankState
      activityRowOk validRawManifest "student-1" "boom" 1
      [draftAttemptRec] draftAttemptRec []).2.2.2.2.2.2.2.2.2.1
    rfl rfl rfl rfl rfl (by decide) rfl,
   (C5_load_partial_state (some "student-1") respFailInit blankState
      activityRowOk validRawManifest "student-1" "down" 1
      [draftAttemptRec] draftAttemptRec []).1⟩

end SimLearning
